import Mathlib

/-!
Verification of the scoring/ranking/caching subsystem of the Bot-bac
repository: the TTL cache (`cache_manager.py`), the rate limiter
(`rate_limiter.py`) and the invalidation / adaptive-TTL glue in
`user_manager.py`, shallowly embedded in Lean 4.

Time (`time.time()`) is modelled as a rational number passed explicitly to
every operation that reads the clock.  Python dictionaries are modelled as
association lists with first-occurrence lookup and in-place update, which
matches dict semantics as long as keys are unique (all lists here are built
only through `dictSet` / `dictDelete`, which preserve uniqueness).
-/

/-- A Python value as far as the cache is concerned: the cache stores
arbitrary objects and `get` returns Python `None` on a miss, so `None` must
be a first-class value rather than a Lean `Option` layer. -/
inductive PyVal where
  | none
  | bool (b : Bool)
  | int (n : ℤ)
  | str (s : String)
deriving DecidableEq, Repr

/-- Python truthiness for the values of `PyVal` (used by `x or y`). -/
def PyVal.truthy : PyVal → Bool
  | PyVal.none => false
  | PyVal.bool b => b
  | PyVal.int n => n != 0
  | PyVal.str s => s != ""

/-- Python `a or b`: returns `a` when `a` is truthy, else `b`. -/
def pyOr (a b : PyVal) : PyVal := if a.truthy then a else b

/-- Python `v + 1` on the recent-activity counter.  The program only ever
stores ints under that key (`update_user_answer` writes
`current_activity + 1` where `current_activity` is `get(...) or 0`); on a
non-numeric value Python would raise, and we extend by the identity. -/
def pyAdd1 : PyVal → PyVal
  | PyVal.int n => PyVal.int (n + 1)
  | v => v

/-- Python `int()` applied to a float: truncation toward zero, on ℚ. -/
def pyInt (q : ℚ) : ℤ := if 0 ≤ q then ⌊q⌋ else ⌈q⌉

/-- Dict update `d[k] = v`: replace the first binding of `k` in place, or
append a fresh binding at the end (Python dicts keep insertion order). -/
def dictSet {α β : Type} [BEq α] : List (α × β) → α → β → List (α × β)
  | [], k, v => [(k, v)]
  | (k', v') :: rest, k, v =>
    if k' == k then (k, v) :: rest else (k', v') :: dictSet rest k v

/-- Dict deletion `del d[k]` (a no-op when the key is absent, as used by
`CacheManager.delete` which guards the deletion with a membership test). -/
def dictDelete {α β : Type} [BEq α] (l : List (α × β)) (k : α) : List (α × β) :=
  l.filter (fun p => !(p.1 == k))

theorem lookup_dictSet_self {α β : Type} [BEq α] [LawfulBEq α]
    (l : List (α × β)) (k : α) (v : β) :
    (dictSet l k v).lookup k = some v := by
  induction l with
  | nil => simp [dictSet, List.lookup]
  | cons p rest ih =>
    by_cases h : p.1 == k
    · simp [dictSet, h, List.lookup]
    · simp only [dictSet, h, if_false, List.lookup]
      have hne : p.1 ≠ k := fun he => h (by simp [he])
      have h2 : (k == p.1) = false := beq_eq_false_iff_ne.mpr (Ne.symm hne)
      simp [h2, ih]

theorem lookup_dictSet_ne {α β : Type} [BEq α] [LawfulBEq α]
    (l : List (α × β)) (k k' : α) (v : β) (h : k' ≠ k) :
    (dictSet l k v).lookup k' = l.lookup k' := by
  induction l with
  | nil => simp [dictSet, List.lookup, beq_eq_false_iff_ne.mpr h]
  | cons p rest ih =>
    by_cases hp : p.1 == k
    · have hpk : p.1 = k := eq_of_beq hp
      simp [dictSet, hp, List.lookup, hpk, beq_eq_false_iff_ne.mpr h]
    · simp only [dictSet, hp, if_false, List.lookup]
      cases hkp : (k' == p.1) <;> simp [ih]

theorem lookup_dictDelete_self {α β : Type} [BEq α] [LawfulBEq α]
    (l : List (α × β)) (k : α) :
    (dictDelete l k).lookup k = Option.none := by
  induction l with
  | nil => simp [dictDelete, List.lookup]
  | cons p rest ih =>
    by_cases hp : p.1 == k
    · simpa [dictDelete, hp] using ih
    · have hne : p.1 ≠ k := fun he => hp (by simp [he])
      have h2 : (k == p.1) = false := beq_eq_false_iff_ne.mpr (Ne.symm hne)
      simpa [dictDelete, hp, List.lookup, h2] using ih

/-- Model of `CacheManager` (`cache_manager.py`): a dict from string keys to
`(value, expiry)` pairs plus the default TTL chosen at construction. -/
structure CacheManager where
  cache : List (String × (PyVal × ℚ))
  default_ttl : ℚ
deriving DecidableEq, Repr

/-- Model of `CacheManager.get`: on a hit before the expiry timestamp, return the
stored value; on an expired entry, delete it and fall through to the miss
path; a miss returns Python `None`.  Returns the (possibly purged) state. -/
def CacheManager.get (c : CacheManager) (now : ℚ) (key : String) :
    PyVal × CacheManager :=
  match c.cache.lookup key with
  | some (value, expiry) =>
    if now < expiry then (value, c)
    else (PyVal.none, { c with cache := dictDelete c.cache key })
  | Option.none => (PyVal.none, c)

/-- Model of `CacheManager.set`: store `value` under `key` with expiry
`now + ttl`, the TTL defaulting to `default_ttl` when `None` is passed. -/
def CacheManager.set (c : CacheManager) (now : ℚ) (key : String)
    (value : PyVal) (ttl : Option ℚ) : CacheManager :=
  { c with cache := dictSet c.cache key (value, now + ttl.getD c.default_ttl) }

/-- Model of `CacheManager.delete`: remove `key`, a no-op when absent. -/
def CacheManager.delete (c : CacheManager) (key : String) : CacheManager :=
  { c with cache := dictDelete c.cache key }

/-- The process-wide cache `global_cache = CacheManager(default_ttl=300)`
in its initial (empty) state. -/
def globalCacheInit : CacheManager := { cache := [], default_ttl := 300 }

/-- Model of `RateLimiter` (`rate_limiter.py`): `user_requests` maps a *user id*
(not a (user, operation) pair) to `(last_request_time, request_count,
window_start)`; `global_requests` maps an operation name to
`(last_request_time, request_count)`.  The limit tables are instance
fields set in `__init__`. -/
structure RateLimiter where
  user_requests : List (ℤ × (ℚ × ℤ × ℚ))
  global_requests : List (String × (ℚ × ℤ))
  user_limits : List (String × (ℤ × ℚ))
  global_limits : List (String × (ℤ × ℚ))
deriving DecidableEq, Repr

/-- The limiter as constructed by `RateLimiter.__init__`. -/
def RateLimiter.init : RateLimiter :=
  { user_requests := []
    global_requests := []
    user_limits := [("quiz_now", (5, 60)), ("ranking", (10, 60)),
                    ("stats", (15, 60)), ("menu", (20, 60)), ("badges", (10, 60))]
    global_limits := [("quiz_now", (2, 1)), ("poll_creation", (3, 1))] }

/-- Model of `RateLimiter.is_user_allowed(user_id, command)` at clock value `now`:
returns the `(allowed, retry_after_seconds)` pair and the updated limiter. -/
def RateLimiter.is_user_allowed (rl : RateLimiter) (now : ℚ) (user_id : ℤ)
    (command : String) : (Bool × ℤ) × RateLimiter :=
  match rl.user_limits.lookup command with
  | Option.none => ((true, 0), rl)
  | some (max_requests, window) =>
    match rl.user_requests.lookup user_id with
    | Option.none =>
      ((true, 0),
       { rl with user_requests := dictSet rl.user_requests user_id (now, 1, now) })
    | some (_last_time, count, window_start) =>
      if now - window_start ≥ window then
        ((true, 0),
         { rl with user_requests := dictSet rl.user_requests user_id (now, 1, now) })
      else if count ≥ max_requests then
        ((false, pyInt (window_start + window - now)), rl)
      else
        ((true, 0),
         { rl with user_requests :=
             dictSet rl.user_requests user_id (now, count + 1, window_start) })

/-- Model of `RateLimiter.is_globally_allowed(command)` at clock value `now`:
the per-operation global window; the stored `last_request_time` acts as the
window start (the increment branch keeps it unchanged). -/
def RateLimiter.is_globally_allowed (rl : RateLimiter) (now : ℚ)
    (command : String) : (Bool × ℤ) × RateLimiter :=
  match rl.global_limits.lookup command with
  | Option.none => ((true, 0), rl)
  | some (max_requests, window) =>
    match rl.global_requests.lookup command with
    | Option.none =>
      ((true, 0),
       { rl with global_requests := dictSet rl.global_requests command (now, 1) })
    | some (last_time, count) =>
      if now - last_time ≥ window then
        ((true, 0),
         { rl with global_requests := dictSet rl.global_requests command (now, 1) })
      else if count ≥ max_requests then
        ((false, pyInt (last_time + window - now)), rl)
      else
        ((true, 0),
         { rl with global_requests :=
             dictSet rl.global_requests command (last_time, count + 1) })

/-- A sequence of `is_user_allowed` calls by one user for one command at
the given clock values, collecting the results and threading the state. -/
def runUser (u : ℤ) (cmd : String) :
    RateLimiter → List ℚ → List (Bool × ℤ) × RateLimiter
  | rl, [] => ([], rl)
  | rl, t :: ts =>
    let s := RateLimiter.is_user_allowed rl t u cmd
    let rest := runUser u cmd s.2 ts
    (s.1 :: rest.1, rest.2)

/-- The control-flow events of one pass through the `rate_limit` decorator's
wrapper, in order: which limiter checks ran and whether the wrapped handler
was executed. -/
inductive CheckEvent where
  | userCheck
  | globalCheck
  | execute
deriving DecidableEq, Repr

/-- The `rate_limit(command)` decorator's wrapper (`rate_limiter.py`): with
no identifiable user it calls the handler directly; otherwise it consults
the per-user limit, and only when that allows, the global limit, and only
when both allow does it execute the handler.  Returns the event trace and
the final limiter state. -/
def rate_limit_wrapper (rl : RateLimiter) (now : ℚ) (user : Option ℤ)
    (command : String) : List CheckEvent × RateLimiter :=
  match user with
  | Option.none => ([CheckEvent.execute], rl)
  | some user_id =>
    let u := rl.is_user_allowed now user_id command
    if u.1.1 = false then ([CheckEvent.userCheck], u.2)
    else
      let g := u.2.is_globally_allowed now command
      if g.1.1 = false then ([CheckEvent.userCheck, CheckEvent.globalCheck], g.2)
      else ([CheckEvent.userCheck, CheckEvent.globalCheck, CheckEvent.execute], g.2)

/-- The ranking-page cache key
`f"ranking_page:{page}:{per_page}:{group_only}"` of
`UserManager.get_ranking_paginated`. -/
def rankingPageKey (page per_page : ℤ) (group_only : Bool) : String :=
  "ranking_page:" ++ toString page ++ ":" ++ toString per_page ++ ":" ++
    (if group_only then "True" else "False")

/-- Python `s.startswith(p)`, modelled on the character lists of the two
strings. -/
def strStartsWith (s p : String) : Bool := List.isPrefixOf p.data s.data

/-- Model of `UserManager._invalidate_ranking_caches`: collect every cache key that
starts with `'ranking:'`, then delete those keys. -/
def invalidate_ranking_caches (c : CacheManager) : CacheManager :=
  let keys_to_delete :=
    (c.cache.map Prod.fst).filter (fun k => strStartsWith k "ranking:")
  keys_to_delete.foldl CacheManager.delete c

/-- The adaptive TTL mapping of `UserManager.get_ranking_paginated`:
recent activity count to cache TTL in seconds. -/
def adaptive_ttl (recent_activity : ℤ) : ℚ :=
  if recent_activity > 10 then 30
  else if recent_activity > 5 then 60
  else 180

/-- The cache path of `UserManager.get_ranking_paginated(page, per_page,
group_only)`: on a hit return the cached page; on a miss compute the page
(abstracted as `db_result`, the value `self.db.get_ranking_paginated`
returns), read the recent-activity counter, cache the page under the
activity-adaptive TTL and return it. -/
def get_ranking_paginated (c : CacheManager) (now : ℚ) (page per_page : ℤ)
    (group_only : Bool) (db_result : PyVal) : PyVal × CacheManager :=
  let key := rankingPageKey page per_page group_only
  let g1 := c.get now key
  if g1.1 ≠ PyVal.none then (g1.1, g1.2)
  else
    let g2 := g1.2.get now "recent_activity"
    let recent := pyOr g2.1 (PyVal.int 0)
    let ttl : ℚ :=
      match recent with
      | PyVal.int n => adaptive_ttl n
      | _ => 180
    (db_result, g2.2.set now key db_result (some ttl))

/-- The cache-visible effect of `UserManager.update_user_answer` after the
database writes and before it returns its success result: invalidate the
ranking caches, delete the `"global_stats"` key, and increment the
`"recent_activity"` counter with a 300-second TTL. -/
def update_user_answer_cache (c : CacheManager) (now : ℚ) : CacheManager :=
  let c1 := invalidate_ranking_caches c
  let c2 := c1.delete "global_stats"
  let g := c2.get now "recent_activity"
  g.2.set now "recent_activity" (pyAdd1 (pyOr g.1 (PyVal.int 0))) (some 300)

theorem is_user_allowed_user_limits (rl : RateLimiter) (now : ℚ) (u : ℤ)
    (cmd : String) :
    (rl.is_user_allowed now u cmd).2.user_limits = rl.user_limits := by
  unfold RateLimiter.is_user_allowed
  split
  · rfl
  · split
    · rfl
    · split
      · rfl
      · split <;> rfl

theorem is_user_allowed_global_requests (rl : RateLimiter) (now : ℚ) (u : ℤ)
    (cmd : String) :
    (rl.is_user_allowed now u cmd).2.global_requests = rl.global_requests := by
  unfold RateLimiter.is_user_allowed
  split
  · rfl
  · split
    · rfl
    · split
      · rfl
      · split <;> rfl

/-- C10: a denied rate-limit check mutates nothing: whenever
`is_user_allowed` or `is_globally_allowed` returns `(False, r)`, the
limiter state after the call is exactly the state before the call. -/
theorem denied_check_leaves_limiter_unchanged (rl : RateLimiter) (now : ℚ)
    (u : ℤ) (cmd : String) :
    ((rl.is_user_allowed now u cmd).1.1 = false →
      (rl.is_user_allowed now u cmd).2 = rl)
    ∧ ((rl.is_globally_allowed now cmd).1.1 = false →
      (rl.is_globally_allowed now cmd).2 = rl) := by
  constructor
  · intro h
    rcases hl : rl.user_limits.lookup cmd with _ | ⟨N, W⟩
    · simp [RateLimiter.is_user_allowed, hl] at h
    · rcases hr : rl.user_requests.lookup u with _ | ⟨lt, c, s⟩
      · simp [RateLimiter.is_user_allowed, hl, hr] at h
      · by_cases hw : now - s ≥ W
        · simp [RateLimiter.is_user_allowed, hl, hr, hw] at h
        · by_cases hc : c ≥ N
          · simp [RateLimiter.is_user_allowed, hl, hr, hw, hc]
          · simp [RateLimiter.is_user_allowed, hl, hr, hw, hc] at h
  · intro h
    rcases hl : rl.global_limits.lookup cmd with _ | ⟨N, W⟩
    · simp [RateLimiter.is_globally_allowed, hl] at h
    · rcases hr : rl.global_requests.lookup cmd with _ | ⟨lt, c⟩
      · simp [RateLimiter.is_globally_allowed, hl, hr] at h
      · by_cases hw : now - lt ≥ W
        · simp [RateLimiter.is_globally_allowed, hl, hr, hw] at h
        · by_cases hc : c ≥ N
          · simp [RateLimiter.is_globally_allowed, hl, hr, hw, hc]
          · simp [RateLimiter.is_globally_allowed, hl, hr, hw, hc] at h

/-- A limiter state reached by five allowed `quiz_now` calls, at which the
per-user `quiz_now` window (5 per 60s) is exhausted, and whose global
`quiz_now` window (2 per 1s) is exhausted as well. -/
def rlBothExhausted : RateLimiter :=
  { RateLimiter.init with
      user_requests := [(1, (0, 5, 0))]
      global_requests := [("quiz_now", (0, 2))] }

theorem denied_check_leaves_limiter_unchanged_witness :
    (rlBothExhausted.is_user_allowed 0 1 "quiz_now").2 = rlBothExhausted
    ∧ (rlBothExhausted.is_globally_allowed 0 "quiz_now").2 = rlBothExhausted :=
  ⟨(denied_check_leaves_limiter_unchanged rlBothExhausted 0 1 "quiz_now").1
      (by norm_num [RateLimiter.is_user_allowed, rlBothExhausted,
        RateLimiter.init, List.lookup]),
   (denied_check_leaves_limiter_unchanged rlBothExhausted 0 1 "quiz_now").2
      (by norm_num [RateLimiter.is_globally_allowed, rlBothExhausted,
        RateLimiter.init, List.lookup])⟩

/-- C6: fail-open for unconfigured operations: with no entry in the
configured limits table, `is_user_allowed` (resp. `is_globally_allowed`)
returns `(True, 0)` and leaves the limiter state untouched, for any prior
history of calls (the state is universally quantified). -/
theorem unconfigured_operation_fail_open (rl : RateLimiter) (now : ℚ)
    (u : ℤ) (cmd : String) :
    (rl.user_limits.lookup cmd = Option.none →
      rl.is_user_allowed now u cmd = ((true, 0), rl))
    ∧ (rl.global_limits.lookup cmd = Option.none →
      rl.is_globally_allowed now cmd = ((true, 0), rl)) := by
  constructor
  · intro h
    simp [RateLimiter.is_user_allowed, h]
  · intro h
    simp [RateLimiter.is_globally_allowed, h]

theorem unconfigured_operation_fail_open_witness :
    RateLimiter.init.is_user_allowed 0 1 "unconfigured_op"
        = ((true, 0), RateLimiter.init)
    ∧ RateLimiter.init.is_globally_allowed 0 "unconfigured_op"
        = ((true, 0), RateLimiter.init) :=
  ⟨(unconfigured_operation_fail_open RateLimiter.init 0 1 "unconfigured_op").1
      (by decide),
   (unconfigured_operation_fail_open RateLimiter.init 0 1 "unconfigured_op").2
      (by decide)⟩

/-- C5: cache expiry boundary: after `set(k, v, ttl)` at time `t₀`, a
`get(k)` at time `tq` returns `v` exactly when the elapsed time `tq - t₀`
is strictly less than `ttl`, and the miss value `None` (logical absence)
as soon as `tq - t₀ ≥ ttl`, whether or not the entry was purged. -/
theorem cache_expiry_boundary (c : CacheManager) (t₀ tq : ℚ) (k : String)
    (v : PyVal) (ttl : ℚ) :
    ((c.set t₀ k v (some ttl)).get tq k).1
      = if tq - t₀ < ttl then v else PyVal.none := by
  by_cases h : tq < t₀ + ttl
  · have h2 : tq - t₀ < ttl := by linarith
    simp [CacheManager.get, CacheManager.set, lookup_dictSet_self, h, h2]
  · have h2 : ¬ tq - t₀ < ttl := fun hx => h (by linarith)
    simp [CacheManager.get, CacheManager.set, lookup_dictSet_self, h, h2]

/-- A cache populated the way the C1 scenario prescribes: a stale ranking
page under `"ranking_page:1:20:False"` and a value under `"global_stats"`,
both set at time 0 and unexpired at time 1. -/
def c1CacheBefore : CacheManager :=
  (globalCacheInit.set 0 "ranking_page:1:20:False" (PyVal.str "stale")
      (some 300)).set 0 "global_stats" (PyVal.str "stats") (some 120)

/-- C1 (the code at the failing input): after `update_user_answer`'s cache
invalidation runs, the stale `"ranking_page:1:20:False"` entry is *still
present* — `_invalidate_ranking_caches` only deletes keys that start with
`'ranking:'`, which never matches the `'ranking_page:...'` keys that
`get_ranking_paginated` writes — while the `"global_stats"` key is deleted
as the claim states. -/
theorem ranking_page_key_survives_score_write :
    (update_user_answer_cache c1CacheBefore 1).cache.lookup
        "ranking_page:1:20:False" ≠ Option.none
    ∧ (update_user_answer_cache c1CacheBefore 1).cache.lookup "global_stats"
        = Option.none := by decide

/-- C2 (counterexample): rate windows are *not* kept per (user, operation).
After five allowed `"menu"` calls at time 0, user 1's very first
`"quiz_now"` call at time 0 is denied with a 60-second retry, whereas from
the pristine limiter the same call is allowed — so the outcome of one
operation depends on the user's calls to a different operation.  Moreover a
single `"menu"` call already changes the per-user record that a
`"quiz_now"` check consults. -/
theorem user_windows_shared_across_operations_counterexample :
    ((runUser 1 "menu" RateLimiter.init [0, 0, 0, 0, 0]).2.is_user_allowed
        0 1 "quiz_now").1 = (false, 60)
    ∧ (RateLimiter.init.is_user_allowed 0 1 "quiz_now").1 = (true, 0)
    ∧ (RateLimiter.init.is_user_allowed 0 1 "menu").2.user_requests.lookup 1
        ≠ RateLimiter.init.user_requests.lookup 1 := by
  refine ⟨?_, ?_, ?_⟩
  · norm_num [runUser, RateLimiter.is_user_allowed, RateLimiter.init,
      List.lookup, dictSet, pyInt]
  · norm_num [RateLimiter.is_user_allowed, RateLimiter.init, List.lookup,
      dictSet]
  · norm_num [RateLimiter.is_user_allowed, RateLimiter.init, List.lookup,
      dictSet]
    exact fun h => Option.noConfusion h

/-- C2 (amended): rate windows are maintained per user only and shared by
all configured operations.  The check depends on the operation name only
through its configured `(max_requests, window)` pair — two operations with
the same configured limit give identical results and identical state
transitions on the shared per-user record — and a call by one user leaves
every other user's record unchanged. -/
theorem user_window_shared_per_user (rl : RateLimiter) (now : ℚ)
    (u u2 : ℤ) (a b : String)
    (hab : rl.user_limits.lookup a = rl.user_limits.lookup b)
    (hu : u2 ≠ u) :
    rl.is_user_allowed now u a = rl.is_user_allowed now u b
    ∧ (rl.is_user_allowed now u a).2.user_requests.lookup u2
        = rl.user_requests.lookup u2 := by
  constructor
  · unfold RateLimiter.is_user_allowed
    rw [hab]
  · rcases hl : rl.user_limits.lookup a with _ | ⟨N, W⟩
    · simp [RateLimiter.is_user_allowed, hl]
    · rcases hr : rl.user_requests.lookup u with _ | ⟨lt, c, s⟩
      · simp [RateLimiter.is_user_allowed, hl, hr, lookup_dictSet_ne _ _ _ _ hu]
      · by_cases hw : now - s ≥ W
        · simp [RateLimiter.is_user_allowed, hl, hr, hw,
            lookup_dictSet_ne _ _ _ _ hu]
        · by_cases hc : c ≥ N
          · simp [RateLimiter.is_user_allowed, hl, hr, hw, hc]
          · simp [RateLimiter.is_user_allowed, hl, hr, hw, hc,
              lookup_dictSet_ne _ _ _ _ hu]

theorem user_window_shared_per_user_witness :
    RateLimiter.init.is_user_allowed 0 1 "ranking"
        = RateLimiter.init.is_user_allowed 0 1 "badges"
    ∧ (RateLimiter.init.is_user_allowed 0 1 "ranking").2.user_requests.lookup 2
        = RateLimiter.init.user_requests.lookup 2 :=
  user_window_shared_per_user RateLimiter.init 0 1 2 "ranking" "badges"
    (by decide) (by decide)

/-- C8 (counterexample): a stored Python `None` is *not* distinguishable
from a miss: within its TTL, `get` on a key that was `set` to `None`
returns exactly what `get` returns on a key that was never set. -/
theorem stored_none_indistinguishable_from_miss :
    ((globalCacheInit.set 0 "k" PyVal.none (some 100)).get 1 "k").1
      = (globalCacheInit.get 1 "k").1 := by
  norm_num [CacheManager.get, CacheManager.set, globalCacheInit, dictSet,
    List.lookup]

/-- C8 (amended): a miss or expiry is reported as Python `None`, which is
distinguishable from every stored value *except* `None` itself: for any
value other than `None` — including the falsy `0`, `""` and `False` — a
`get` within the TTL returns the stored value, which differs from the miss
result obtained on a deleted key. -/
theorem stored_value_distinguishable_from_miss (c : CacheManager)
    (t₀ e : ℚ) (k : String) (v : PyVal) (ttl : ℚ)
    (hv : v ≠ PyVal.none) (he : e < ttl) :
    ((c.set t₀ k v (some ttl)).get (t₀ + e) k).1 = v
    ∧ ((c.set t₀ k v (some ttl)).get (t₀ + e) k).1
        ≠ ((c.delete k).get (t₀ + e) k).1 := by
  have hlt : t₀ + e < t₀ + ttl := by linarith
  have h1 : ((c.set t₀ k v (some ttl)).get (t₀ + e) k).1 = v := by
    simp [CacheManager.get, CacheManager.set, lookup_dictSet_self, hlt]
  have h2 : ((c.delete k).get (t₀ + e) k).1 = PyVal.none := by
    simp [CacheManager.get, CacheManager.delete, lookup_dictDelete_self]
  exact ⟨h1, by rw [h1, h2]; exact hv⟩

theorem stored_value_distinguishable_from_miss_witness :
    ((globalCacheInit.set 0 "k" (PyVal.int 0) (some 10)).get (0 + 5) "k").1
        = PyVal.int 0
    ∧ ((globalCacheInit.set 0 "k" (PyVal.int 0) (some 10)).get (0 + 5) "k").1
        ≠ ((globalCacheInit.delete "k").get (0 + 5) "k").1 :=
  stored_value_distinguishable_from_miss globalCacheInit 0 5 "k"
    (PyVal.int 0) 10 (by decide) (by norm_num)

/-- C9: when `get_ranking_paginated` misses the cache and recomputes a
ranking page, the TTL of the entry it writes (visible as `expiry - now`) is
exactly `adaptive_ttl a` — 30s for activity `a > 10`, 60s for `5 < a ≤ 10`,
180s otherwise — when the recent-activity counter reads as the int `a`, and
exactly 180s when the counter is absent (`None`, which `or 0` turns into
activity 0). -/
theorem adaptive_ttl_selection (c : CacheManager) (now : ℚ)
    (page per_page : ℤ) (g : Bool) (db : PyVal) (a : ℤ)
    (hmiss : (c.get now (rankingPageKey page per_page g)).1 = PyVal.none) :
    (((c.get now (rankingPageKey page per_page g)).2.get now
        "recent_activity").1 = PyVal.int a →
      (get_ranking_paginated c now page per_page g db).2.cache.lookup
          (rankingPageKey page per_page g) = some (db, now + adaptive_ttl a))
    ∧ (((c.get now (rankingPageKey page per_page g)).2.get now
        "recent_activity").1 = PyVal.none →
      (get_ranking_paginated c now page per_page g db).2.cache.lookup
          (rankingPageKey page per_page g) = some (db, now + 180)) := by
  constructor
  · intro hact
    by_cases ha : a = 0
    · subst ha
      simp [get_ranking_paginated, hmiss, hact, pyOr, PyVal.truthy,
        CacheManager.set, lookup_dictSet_self, adaptive_ttl]
    · simp [get_ranking_paginated, hmiss, hact, pyOr, PyVal.truthy, ha,
        CacheManager.set, lookup_dictSet_self]
  · intro hact
    simp [get_ranking_paginated, hmiss, hact, pyOr, PyVal.truthy,
      CacheManager.set, lookup_dictSet_self, adaptive_ttl]

/-- A cache whose recent-activity counter reads 12 (high activity). -/
def cacheActivity12 : CacheManager :=
  globalCacheInit.set 0 "recent_activity" (PyVal.int 12) (some 300)

/-- A cache whose recent-activity counter reads 3 (low activity). -/
def cacheActivity3 : CacheManager :=
  globalCacheInit.set 0 "recent_activity" (PyVal.int 3) (some 300)

theorem adaptive_ttl_selection_witness :
    (get_ranking_paginated cacheActivity12 1 1 20 false
        (PyVal.str "page")).2.cache.lookup (rankingPageKey 1 20 false)
      = some (PyVal.str "page", 1 + adaptive_ttl 12)
    ∧ (get_ranking_paginated cacheActivity3 1 1 20 false
        (PyVal.str "page")).2.cache.lookup (rankingPageKey 1 20 false)
      = some (PyVal.str "page", 1 + adaptive_ttl 3) :=
  ⟨(adaptive_ttl_selection cacheActivity12 1 1 20 false (PyVal.str "page") 12
      (by decide)).1
      (by norm_num [CacheManager.get, CacheManager.set, globalCacheInit,
        cacheActivity12, dictSet, List.lookup, rankingPageKey]),
   (adaptive_ttl_selection cacheActivity3 1 1 20 false (PyVal.str "page") 3
      (by decide)).1
      (by norm_num [CacheManager.get, CacheManager.set, globalCacheInit,
        cacheActivity3, dictSet, List.lookup, rankingPageKey])⟩

/-- C7: guard composition order of the `rate_limit` wrapper for a call with
an identifiable user: the per-user check always runs first; when it denies,
the trace stops at the user check — the global limit is not consulted and
its counter is left exactly as it was — and the handler runs if and only if
the per-user check and then the global check both allow. -/
theorem guard_composition_order (rl : RateLimiter) (now : ℚ) (uid : ℤ)
    (cmd : String) :
    (rate_limit_wrapper rl now (some uid) cmd).1.head?
        = some CheckEvent.userCheck
    ∧ ((rl.is_user_allowed now uid cmd).1.1 = false →
        (rate_limit_wrapper rl now (some uid) cmd).1 = [CheckEvent.userCheck]
        ∧ (rate_limit_wrapper rl now (some uid) cmd).2.global_requests
            = rl.global_requests)
    ∧ (CheckEvent.execute ∈ (rate_limit_wrapper rl now (some uid) cmd).1 ↔
        (rl.is_user_allowed now uid cmd).1.1 = true
        ∧ ((rl.is_user_allowed now uid cmd).2.is_globally_allowed now
            cmd).1.1 = true) := by
  cases hu : (rl.is_user_allowed now uid cmd).1.1
  · refine ⟨?_, fun _ => ⟨?_, ?_⟩, ?_⟩ <;>
      simp [rate_limit_wrapper, hu, is_user_allowed_global_requests]
  · cases hg : ((rl.is_user_allowed now uid cmd).2.is_globally_allowed
        now cmd).1.1
    · refine ⟨?_, ?_, ?_⟩ <;> simp [rate_limit_wrapper, hu, hg]
    · refine ⟨?_, ?_, ?_⟩ <;> simp [rate_limit_wrapper, hu, hg]

theorem guard_composition_order_witness :
    (rate_limit_wrapper rlBothExhausted 0 (some 1) "quiz_now").1
        = [CheckEvent.userCheck]
    ∧ (rate_limit_wrapper rlBothExhausted 0 (some 1) "quiz_now").2.global_requests
        = rlBothExhausted.global_requests :=
  (guard_composition_order rlBothExhausted 0 1 "quiz_now").2.1
    (by norm_num [RateLimiter.is_user_allowed, rlBothExhausted,
      RateLimiter.init, List.lookup])

theorem is_user_allowed_reset (rl : RateLimiter) (now : ℚ) (u : ℤ)
    (cmd : String) (N : ℤ) (W : ℚ) (lt s : ℚ) (c : ℤ)
    (hlim : rl.user_limits.lookup cmd = some (N, W))
    (hrec : rl.user_requests.lookup u = some (lt, c, s))
    (hw : now - s ≥ W) :
    rl.is_user_allowed now u cmd
      = ((true, 0),
         { rl with user_requests := dictSet rl.user_requests u (now, 1, now) }) := by
  simp [RateLimiter.is_user_allowed, hlim, hrec, hw]

theorem is_user_allowed_deny (rl : RateLimiter) (now : ℚ) (u : ℤ)
    (cmd : String) (N : ℤ) (W : ℚ) (lt s : ℚ) (c : ℤ)
    (hlim : rl.user_limits.lookup cmd = some (N, W))
    (hrec : rl.user_requests.lookup u = some (lt, c, s))
    (hw : ¬ now - s ≥ W) (hc : c ≥ N) :
    rl.is_user_allowed now u cmd = ((false, pyInt (s + W - now)), rl) := by
  simp [RateLimiter.is_user_allowed, hlim, hrec, hw, hc]

theorem is_user_allowed_increment (rl : RateLimiter) (now : ℚ) (u : ℤ)
    (cmd : String) (N : ℤ) (W : ℚ) (lt s : ℚ) (c : ℤ)
    (hlim : rl.user_limits.lookup cmd = some (N, W))
    (hrec : rl.user_requests.lookup u = some (lt, c, s))
    (hw : ¬ now - s ≥ W) (hc : ¬ c ≥ N) :
    rl.is_user_allowed now u cmd
      = ((true, 0),
         { rl with user_requests := dictSet rl.user_requests u (now, c + 1, s) }) := by
  simp [RateLimiter.is_user_allowed, hlim, hrec, hw, hc]

/-- Within one window (every call time within `W` of the record's window
start `s`), a run of calls is allowed while the count is below `N` and
denied afterwards; the count rises to at most `N`, the window start never
moves, and the limit table is untouched. -/
theorem runUser_in_window (u : ℤ) (cmd : String) (N : ℤ) (W : ℚ) (s : ℚ)
    (ts : List ℚ) :
    ∀ (rl : RateLimiter) (lt : ℚ) (c : ℤ),
    rl.user_limits.lookup cmd = some (N, W) →
    rl.user_requests.lookup u = some (lt, c, s) →
    (∀ t ∈ ts, t - s < W) →
    ((runUser u cmd rl ts).1.map Prod.fst
        = List.replicate (min ts.length (N - c).toNat) true
          ++ List.replicate (ts.length - (N - c).toNat) false)
    ∧ (∃ lt2, (runUser u cmd rl ts).2.user_requests.lookup u
        = some (lt2, c + ((min ts.length (N - c).toNat : ℕ) : ℤ), s))
    ∧ (runUser u cmd rl ts).2.user_limits = rl.user_limits := by
  induction ts with
  | nil =>
    intro rl lt c hlim hrec hts
    refine ⟨by simp [runUser], ⟨lt, ?_⟩, rfl⟩
    simpa [runUser] using hrec
  | cons t ts ih =>
    intro rl lt c hlim hrec hts
    have ht : t - s < W := hts t (by simp)
    have hts2 : ∀ x ∈ ts, x - s < W := fun x hx => hts x (by simp [hx])
    have hw : ¬ t - s ≥ W := not_le.mpr ht
    by_cases hc : c ≥ N
    · have hstep := is_user_allowed_deny rl t u cmd N W lt s c hlim hrec hw hc
      have h0 : (N - c).toNat = 0 := by omega
      obtain ⟨hmap, ⟨lt2, hcount⟩, hlimits⟩ := ih rl lt c hlim hrec hts2
      refine ⟨?_, ⟨lt2, ?_⟩, ?_⟩
      · simp only [runUser, hstep]
        simp only [List.map_cons, hmap, h0]
        simp [List.replicate_succ]
      · simp only [runUser, hstep]
        rw [hcount, h0]
        simp
      · simp only [runUser, hstep]
        exact hlimits
    · have hstep := is_user_allowed_increment rl t u cmd N W lt s c hlim hrec hw hc
      have hm : (N - c).toNat = (N - (c + 1)).toNat + 1 := by omega
      have hlim2 : ({ rl with user_requests := dictSet rl.user_requests u (t, c + 1, s) } : RateLimiter).user_limits.lookup cmd = some (N, W) := hlim
      have hrec2 : ({ rl with user_requests := dictSet rl.user_requests u (t, c + 1, s) } : RateLimiter).user_requests.lookup u = some (t, c + 1, s) :=
        lookup_dictSet_self _ _ _
      obtain ⟨hmap, ⟨lt2, hcount⟩, hlimits⟩ :=
        ih { rl with user_requests := dictSet rl.user_requests u (t, c + 1, s) }
          t (c + 1) hlim2 hrec2 hts2
      refine ⟨?_, ⟨lt2, ?_⟩, ?_⟩
      · simp only [runUser, hstep]
        simp only [List.map_cons, hmap, hm]
        simp only [List.length_cons, Nat.succ_min_succ, Nat.succ_sub_succ]
        simp [List.replicate_succ]
      · simp only [runUser, hstep]
        rw [hcount]
        have harith : (c + 1) + ((min ts.length (N - (c + 1)).toNat : ℕ) : ℤ)
            = c + ((min (ts.length + 1) (N - c).toNat : ℕ) : ℤ) := by
          omega
        rw [harith]
        simp
      · simp only [runUser, hstep]
        exact hlimits

/-- C3: fixed-window semantics.  For an operation configured with limit `N`
per `W` seconds and a user with no prior window, a run of consecutive
calls starting at `t₀` whose remaining call times stay within `W` of `t₀`
yields exactly `min (length) N` allowed calls followed by denials (so with
`N + 1` calls, `N` allowed and the last denied); and as soon as a call
arrives at a time `t1` with `t1 - t₀ ≥ W`, it is allowed and the window is
restarted with count 1 at `t1`. -/
theorem fixed_window_semantics (rl : RateLimiter) (u : ℤ) (cmd : String)
    (N : ℤ) (W : ℚ) (t₀ t1 : ℚ) (rest : List ℚ)
    (hlim : rl.user_limits.lookup cmd = some (N, W))
    (hfresh : rl.user_requests.lookup u = Option.none)
    (hN : 1 ≤ N)
    (hrest : ∀ t ∈ rest, t - t₀ < W)
    (ht1 : t1 - t₀ ≥ W) :
    ((runUser u cmd rl (t₀ :: rest)).1.map Prod.fst
        = List.replicate (min (rest.length + 1) N.toNat) true
          ++ List.replicate (rest.length + 1 - N.toNat) false)
    ∧ ((runUser u cmd rl (t₀ :: rest)).2.is_user_allowed t1 u cmd).1 = (true, 0)
    ∧ ((runUser u cmd rl (t₀ :: rest)).2.is_user_allowed t1 u
        cmd).2.user_requests.lookup u = some (t1, 1, t1) := by
  have hstep : rl.is_user_allowed t₀ u cmd
      = ((true, 0),
         { rl with user_requests := dictSet rl.user_requests u (t₀, 1, t₀) }) := by
    simp [RateLimiter.is_user_allowed, hlim, hfresh]
  have hlim2 : ({ rl with user_requests := dictSet rl.user_requests u (t₀, 1, t₀) } : RateLimiter).user_limits.lookup cmd = some (N, W) := hlim
  have hrec2 : ({ rl with user_requests := dictSet rl.user_requests u (t₀, 1, t₀) } : RateLimiter).user_requests.lookup u = some (t₀, 1, t₀) :=
    lookup_dictSet_self _ _ _
  obtain ⟨hmap, ⟨lt2, hcount⟩, hlimits⟩ :=
    runUser_in_window u cmd N W t₀ rest
      { rl with user_requests := dictSet rl.user_requests u (t₀, 1, t₀) }
      t₀ 1 hlim2 hrec2 hrest
  have hm : N.toNat = (N - 1).toNat + 1 := by omega
  have hlim3 : (runUser u cmd { rl with user_requests := dictSet rl.user_requests u (t₀, 1, t₀) } rest).2.user_limits.lookup cmd = some (N, W) := by
    rw [hlimits]; exact hlim
  have hreset := is_user_allowed_reset
    (runUser u cmd { rl with user_requests := dictSet rl.user_requests u (t₀, 1, t₀) } rest).2
    t1 u cmd N W lt2 t₀ (1 + ((min rest.length (N - 1).toNat : ℕ) : ℤ))
    hlim3 hcount ht1
  refine ⟨?_, ?_, ?_⟩
  · simp only [runUser, hstep]
    simp only [List.map_cons, hmap, hm]
    simp only [List.length_cons, Nat.succ_min_succ, Nat.succ_sub_succ]
    simp [List.replicate_succ]
  · simp only [runUser, hstep, hreset]
  · simp only [runUser, hstep, hreset]
    exact lookup_dictSet_self _ _ _

theorem fixed_window_semantics_witness :
    ((runUser 1 "quiz_now" RateLimiter.init ((0 : ℚ) :: [1, 2, 3, 4, 5])).1.map
        Prod.fst
      = List.replicate (min (([1, 2, 3, 4, 5] : List ℚ).length + 1) (5 : ℤ).toNat)
          true
        ++ List.replicate (([1, 2, 3, 4, 5] : List ℚ).length + 1 - (5 : ℤ).toNat)
          false)
    ∧ (((runUser 1 "quiz_now" RateLimiter.init
          ((0 : ℚ) :: [1, 2, 3, 4, 5])).2.is_user_allowed 60 1 "quiz_now").1
        = (true, 0))
    ∧ ((runUser 1 "quiz_now" RateLimiter.init
          ((0 : ℚ) :: [1, 2, 3, 4, 5])).2.is_user_allowed 60 1
          "quiz_now").2.user_requests.lookup 1 = some (60, 1, 60) :=
  fixed_window_semantics RateLimiter.init 1 "quiz_now" 5 60 0 60 [1, 2, 3, 4, 5]
    (by decide) (by decide) (by decide)
    (by norm_num [List.forall_mem_cons]) (by norm_num)

/-- The limiter after user 1 makes five allowed `"quiz_now"` calls at time
0, exhausting the 5-per-60s window that started at 0. -/
def rlAfter5 : RateLimiter :=
  (runUser 1 "quiz_now" RateLimiter.init [0, 0, 0, 0, 0]).2

/-- C4 (counterexample): at the fractional time `now = 1/2` inside an
exhausted window started at 0 with `W = 60`, the code reports
`retry_after_seconds = int(0 + 60 - 1/2) = 59`, which is *not*
`ceil(window_start + W - now) = 60`; and a repeat call made exactly 59
seconds later (at time `1/2 + 59 = 59.5 < 60`) is still denied, not
allowed. -/
theorem retry_after_ceil_counterexample :
    (rlAfter5.is_user_allowed (1/2) 1 "quiz_now").1 = (false, 59)
    ∧ (59 : ℤ) ≠ ⌈(0 : ℚ) + 60 - 1/2⌉
    ∧ ((rlAfter5.is_user_allowed (1/2) 1 "quiz_now").2.is_user_allowed
        (1/2 + 59) 1 "quiz_now").1.1 = false := by
  have h5 : rlAfter5.user_requests.lookup 1 = some (0, 5, 0) := by
    norm_num [rlAfter5, runUser, RateLimiter.is_user_allowed, RateLimiter.init,
      List.lookup, dictSet]
  have hlim : rlAfter5.user_limits.lookup "quiz_now" = some (5, 60) := by
    norm_num [rlAfter5, runUser, RateLimiter.is_user_allowed, RateLimiter.init,
      List.lookup, dictSet]
  have hd := is_user_allowed_deny rlAfter5 (1/2) 1 "quiz_now" 5 60 0 0 5
    hlim h5 (by norm_num) (by norm_num)
  have hd2 := is_user_allowed_deny rlAfter5 (1/2 + 59) 1 "quiz_now" 5 60 0 0 5
    hlim h5 (by norm_num) (by norm_num)
  refine ⟨?_, ne_of_lt (Int.lt_ceil.mpr (by norm_num)), ?_⟩
  · rw [hd]
    norm_num [pyInt]
  · rw [hd, hd2]

theorem is_globally_allowed_reset (rl : RateLimiter) (now : ℚ) (cmd : String)
    (N : ℤ) (W : ℚ) (lt : ℚ) (c : ℤ)
    (hlim : rl.global_limits.lookup cmd = some (N, W))
    (hrec : rl.global_requests.lookup cmd = some (lt, c))
    (hw : now - lt ≥ W) :
    rl.is_globally_allowed now cmd
      = ((true, 0),
         { rl with global_requests := dictSet rl.global_requests cmd (now, 1) }) := by
  simp [RateLimiter.is_globally_allowed, hlim, hrec, hw]

theorem is_globally_allowed_deny (rl : RateLimiter) (now : ℚ) (cmd : String)
    (N : ℤ) (W : ℚ) (lt : ℚ) (c : ℤ)
    (hlim : rl.global_limits.lookup cmd = some (N, W))
    (hrec : rl.global_requests.lookup cmd = some (lt, c))
    (hw : ¬ now - lt ≥ W) (hc : c ≥ N) :
    rl.is_globally_allowed now cmd = ((false, pyInt (lt + W - now)), rl) := by
  simp [RateLimiter.is_globally_allowed, hlim, hrec, hw, hc]

/-- C4 (amended): when a rate-limit check — per-user or global — denies,
the reported `retry_after_seconds` equals `⌊window_start + W - now⌋` —
Python `int()` truncation of the positive remaining time, i.e. the
*floor*, not the ceiling (for the global check the stored
`last_request_time` is the window start) — it is always `≥ 0`, and a
repeat call made `retry_after + 1` seconds later (one more than reported)
succeeds. -/
theorem retry_after_truncation (rl : RateLimiter) (u : ℤ) (cmd : String)
    (N Ng : ℤ) (W Wg : ℚ) (now lt s sg : ℚ) (c cg : ℤ) :
    (rl.user_limits.lookup cmd = some (N, W) →
     rl.user_requests.lookup u = some (lt, c, s) →
     (rl.is_user_allowed now u cmd).1.1 = false →
      (rl.is_user_allowed now u cmd).1.2 = ⌊s + W - now⌋
      ∧ 0 ≤ (rl.is_user_allowed now u cmd).1.2
      ∧ ((rl.is_user_allowed now u cmd).2.is_user_allowed
          (now + ((rl.is_user_allowed now u cmd).1.2 : ℚ) + 1) u cmd).1.1
          = true)
    ∧ (rl.global_limits.lookup cmd = some (Ng, Wg) →
       rl.global_requests.lookup cmd = some (sg, cg) →
       (rl.is_globally_allowed now cmd).1.1 = false →
        (rl.is_globally_allowed now cmd).1.2 = ⌊sg + Wg - now⌋
        ∧ 0 ≤ (rl.is_globally_allowed now cmd).1.2
        ∧ ((rl.is_globally_allowed now cmd).2.is_globally_allowed
            (now + ((rl.is_globally_allowed now cmd).1.2 : ℚ) + 1) cmd).1.1
            = true) := by
  constructor
  · intro hlim hrec hdeny
    by_cases hw : now - s ≥ W
    · exfalso
      simp [RateLimiter.is_user_allowed, hlim, hrec, hw] at hdeny
    · by_cases hc : c ≥ N
      · have hres := is_user_allowed_deny rl now u cmd N W lt s c hlim hrec hw hc
        have hw2 : now - s < W := not_le.mp hw
        have hpos : (0 : ℚ) ≤ s + W - now := by linarith
        have hfloor : (rl.is_user_allowed now u cmd).1.2 = ⌊s + W - now⌋ := by
          rw [hres]
          simp [pyInt, hpos]
        refine ⟨hfloor, ?_, ?_⟩
        · rw [hfloor]
          exact Int.floor_nonneg.mpr hpos
        · rw [hfloor, hres]
          have hlt : s + W - now < (⌊s + W - now⌋ : ℚ) + 1 :=
            Int.lt_floor_add_one _
          have hreset : now + (⌊s + W - now⌋ : ℚ) + 1 - s ≥ W := by linarith
          rw [is_user_allowed_reset rl (now + (⌊s + W - now⌋ : ℚ) + 1) u cmd
            N W lt s c hlim hrec hreset]
      · exfalso
        simp [RateLimiter.is_user_allowed, hlim, hrec, hw, hc] at hdeny
  · intro hlim hrec hdeny
    by_cases hw : now - sg ≥ Wg
    · exfalso
      simp [RateLimiter.is_globally_allowed, hlim, hrec, hw] at hdeny
    · by_cases hc : cg ≥ Ng
      · have hres := is_globally_allowed_deny rl now cmd Ng Wg sg cg hlim hrec hw hc
        have hw2 : now - sg < Wg := not_le.mp hw
        have hpos : (0 : ℚ) ≤ sg + Wg - now := by linarith
        have hfloor : (rl.is_globally_allowed now cmd).1.2 = ⌊sg + Wg - now⌋ := by
          rw [hres]
          simp [pyInt, hpos]
        refine ⟨hfloor, ?_, ?_⟩
        · rw [hfloor]
          exact Int.floor_nonneg.mpr hpos
        · rw [hfloor, hres]
          have hlt : sg + Wg - now < (⌊sg + Wg - now⌋ : ℚ) + 1 :=
            Int.lt_floor_add_one _
          have hreset : now + (⌊sg + Wg - now⌋ : ℚ) + 1 - sg ≥ Wg := by linarith
          rw [is_globally_allowed_reset rl (now + (⌊sg + Wg - now⌋ : ℚ) + 1)
            cmd Ng Wg sg cg hlim hrec hreset]
      · exfalso
        simp [RateLimiter.is_globally_allowed, hlim, hrec, hw, hc] at hdeny

theorem retry_after_truncation_witness :
    ((rlAfter5.is_user_allowed (1/2) 1 "quiz_now").1.2 = ⌊(0 : ℚ) + 60 - 1/2⌋
     ∧ 0 ≤ (rlAfter5.is_user_allowed (1/2) 1 "quiz_now").1.2
     ∧ ((rlAfter5.is_user_allowed (1/2) 1 "quiz_now").2.is_user_allowed
        (1/2 + ((rlAfter5.is_user_allowed (1/2) 1 "quiz_now").1.2 : ℚ) + 1) 1
        "quiz_now").1.1 = true)
    ∧ ((rlBothExhausted.is_globally_allowed (1/2) "quiz_now").1.2
        = ⌊(0 : ℚ) + 1 - 1/2⌋
     ∧ 0 ≤ (rlBothExhausted.is_globally_allowed (1/2) "quiz_now").1.2
     ∧ ((rlBothExhausted.is_globally_allowed (1/2) "quiz_now").2.is_globally_allowed
        (1/2 + ((rlBothExhausted.is_globally_allowed (1/2) "quiz_now").1.2 : ℚ) + 1)
        "quiz_now").1.1 = true) :=
  ⟨(retry_after_truncation rlAfter5 1 "quiz_now" 5 2 60 1 (1/2) 0 0 0 5 2).1
      (by norm_num [rlAfter5, runUser, RateLimiter.is_user_allowed,
        RateLimiter.init, List.lookup, dictSet])
      (by norm_num [rlAfter5, runUser, RateLimiter.is_user_allowed,
        RateLimiter.init, List.lookup, dictSet])
      (by norm_num [rlAfter5, runUser, RateLimiter.is_user_allowed,
        RateLimiter.init, List.lookup, dictSet, pyInt]),
   (retry_after_truncation rlBothExhausted 1 "quiz_now" 5 2 60 1 (1/2) 0 0 0 5 2).2
      (by decide) (by decide)
      (by norm_num [RateLimiter.is_globally_allowed, rlBothExhausted,
        RateLimiter.init, List.lookup])⟩
